import Mathlib

/-!
Shallow embedding of `src/ukol2.py`.

The source computes great-circle distances with a haversine-style formula
(`Coordinate.distance`), matches each query coordinate to its nearest city via
Python's `min` with a distance key (`write_closest_cities`), and parses
coordinates from pairs of CSV rows (`parse_coordinates`).

Python floats are modelled by real numbers; `math.sqrt` raising `ValueError`
on a negative argument, and `min` raising `ValueError` on an empty sequence,
are modelled with `Except`.
-/

open Real

noncomputable section

/-- Degree-to-radian conversion, as Python's `math.radians`. -/
def radians (x : ℝ) : ℝ := x * (π / 180)

/-- Python's `math.atan2 y x` over real numbers (quadrant-aware arctangent). -/
def atan2 (y x : ℝ) : ℝ :=
  if 0 < x then arctan (y / x)
  else if x < 0 then
    if 0 ≤ y then arctan (y / x) + π else arctan (y / x) - π
  else
    if 0 < y then π / 2 else if y < 0 then -(π / 2) else 0

/-- The `EARTH_RADIUS = 6371` constant of the source (kilometres). -/
def EARTH_RADIUS : ℝ := 6371

/-- Exceptions the modelled code can raise: `ValueError: math domain error`
from `math.sqrt` on a negative argument, and `ValueError: min() arg is an
empty sequence` (the spec's `EmptyCandidateSet`) from `min` on no candidates. -/
inductive Err where
  | domainError
  | emptySeq
deriving DecidableEq

/-- The `Coordinate` class of the source: a latitude/longitude pair in degrees. -/
structure Coordinate where
  latitude : ℝ
  longitude : ℝ

/-- The intermediate value `a` computed inside `Coordinate.distance` in the
source, verbatim: `sin(dlat/2)*sin(dlat/2) +
radians(c1.latitude)*cos(radians(c2.latitude))*sin(dlon/2)*sin(dlon/2)`
with `dlat = radians(c2.latitude - c1.latitude)` and
`dlon = radians(c2.longitude - c1.longitude)`. -/
def hav_a (c1 c2 : Coordinate) : ℝ :=
  sin (radians (c2.latitude - c1.latitude) / 2) *
      sin (radians (c2.latitude - c1.latitude) / 2) +
    radians c1.latitude * cos (radians c2.latitude) *
        sin (radians (c2.longitude - c1.longitude) / 2) *
      sin (radians (c2.longitude - c1.longitude) / 2)

/-- `Coordinate.distance` from the source. `math.sqrt` raises `ValueError`
on a negative argument, so the call fails when `a < 0` (from `sqrt(a)`) or
when `1 - a < 0` (from `sqrt(1 - a)`); otherwise it returns
`EARTH_RADIUS * c` with `c = 2 * atan2(sqrt(a), sqrt(1 - a))`. -/
def Coordinate.distance (c1 c2 : Coordinate) : Except Err ℝ :=
  if hav_a c1 c2 < 0 then .error .domainError
  else if 1 - hav_a c1 c2 < 0 then .error .domainError
  else
    .ok (EARTH_RADIUS *
      (2 * atan2 (Real.sqrt (hav_a c1 c2)) (Real.sqrt (1 - hav_a c1 c2))))

/-- The value `Coordinate.distance` returns when no exception occurs, as a
function of the intermediate `a`. -/
def havDist (a : ℝ) : ℝ :=
  EARTH_RADIUS * (2 * atan2 (Real.sqrt a) (Real.sqrt (1 - a)))

/-- The `City` class of the source: a named coordinate. -/
structure City where
  name : String
  latitude : ℝ
  longitude : ℝ

/-- The coordinate underlying a city (the source uses inheritance: a `City`
is passed directly to `Coordinate.distance`). -/
def City.toCoordinate (c : City) : Coordinate :=
  ⟨c.latitude, c.longitude⟩

/-- The scanning phase of Python's `min(cities, key=...)` as called by
`write_closest_cities`: keep the current best candidate and replace it only
when a strictly smaller key is found; a key evaluation that raises
propagates the exception. -/
def minScan (coordinate : Coordinate) : City → ℝ → List City → Except Err City
  | best, _, [] => .ok best
  | best, bestKey, c :: cs =>
    match Coordinate.distance c.toCoordinate coordinate with
    | .error e => .error e
    | .ok k =>
      if k < bestKey then minScan coordinate c k cs
      else minScan coordinate best bestKey cs

/-- The expression `min(cities, key=lambda city: Coordinate.distance(city,
coordinate))` from `write_closest_cities` (the spec's `nearest`): Python's
`min` raises `ValueError` on an empty sequence and otherwise scans,
evaluating the key candidate-first. -/
def nearest (coordinate : Coordinate) : List City → Except Err City
  | [] => .error .emptySeq
  | c :: cs =>
    match Coordinate.distance c.toCoordinate coordinate with
    | .error e => .error e
    | .ok k => minScan coordinate c k cs

/-- One output row of `write_closest_cities`: the query coordinate (written
as its latitude and longitude) together with the closest city found. -/
structure MatchResult where
  query : Coordinate
  closest : City

/-- The data rows produced by `write_closest_cities`: one row per input
coordinate, in input order, each from the `min` call above; an exception
raised by `min` aborts the run. -/
def write_closest_cities :
    List Coordinate → List City → Except Err (List MatchResult)
  | [], _ => .ok []
  | coordinate :: rest, cities =>
    match nearest coordinate cities with
    | .error e => .error e
    | .ok city =>
      match write_closest_cities rest cities with
      | .error e => .error e
      | .ok results => .ok (⟨coordinate, city⟩ :: results)

/-- `parse_coordinates` from the source, over the `value` fields of the CSV
data rows: rows are consumed two at a time (latitude, then longitude); a
latitude row with no following longitude row raises
`ValueError('Invalid coordinates file')`. -/
def parse_coordinates : List ℝ → Except String (List Coordinate)
  | [] => .ok []
  | [_] => .error "Invalid coordinates file"
  | la :: lo :: rest =>
    match parse_coordinates rest with
    | .error e => .error e
    | .ok cs => .ok (⟨la, lo⟩ :: cs)

/-- The haversine intermediate `a` as the spec's section 4.1 states it:
`a = sin²(Δlat/2) + cos(radians(lat1)) · cos(radians(lat2)) · sin²(Δlon/2)`.
It differs from the source's `hav_a` in the first factor of the cross term. -/
def spec_a (c1 c2 : Coordinate) : ℝ :=
  sin (radians (c2.latitude - c1.latitude) / 2) ^ 2 +
    cos (radians c1.latitude) * cos (radians c2.latitude) *
      sin (radians (c2.longitude - c1.longitude) / 2) ^ 2

/-- The distance the spec's section 4.1 specifies:
`c = 2 · atan2(√a, √(1−a))`, `result = EARTH_RADIUS_KM · c`, with `a` the
spec's haversine intermediate. -/
def distanceSpec (c1 c2 : Coordinate) : ℝ :=
  EARTH_RADIUS *
    (2 * atan2 (Real.sqrt (spec_a c1 c2)) (Real.sqrt (1 - spec_a c1 c2)))

/-- Pure reference form of Python's `min` scan: given the key values as a
function, keep the current best and replace it only on a strictly smaller
key (first minimum wins). Used to state what `minScan` computes once every
key evaluation is known to succeed. -/
def minBy (key : City → ℝ) : City → List City → City
  | best, [] => best
  | best, c :: cs =>
    if key c < key best then minBy key c cs else minBy key best cs

/-- Variant of `minScan` evaluating the distance key query-first, for
comparison with the source's candidate-first key. -/
def minScanQF (coordinate : Coordinate) :
    City → ℝ → List City → Except Err City
  | best, _, [] => .ok best
  | best, bestKey, c :: cs =>
    match Coordinate.distance coordinate c.toCoordinate with
    | .error e => .error e
    | .ok k =>
      if k < bestKey then minScanQF coordinate c k cs
      else minScanQF coordinate best bestKey cs

/-- Variant of `nearest` that evaluates the distance with the query as the
first argument, `distance(coordinate, city)`, for comparison with the
source's candidate-first call `distance(city, coordinate)`. -/
def nearestQF (coordinate : Coordinate) : List City → Except Err City
  | [] => .error .emptySeq
  | c :: cs =>
    match Coordinate.distance coordinate c.toCoordinate with
    | .error e => .error e
    | .ok k => minScanQF coordinate c k cs

end

/-! Evaluation lemmas for `atan2` at the argument shapes the claims need. -/

lemma atan2_zero_one : atan2 0 1 = 0 := by
  unfold atan2
  rw [if_pos (by norm_num : (0:ℝ) < 1)]
  simp

lemma atan2_one_zero : atan2 1 0 = π / 2 := by
  unfold atan2
  norm_num

lemma atan2_sqrt_half : atan2 (Real.sqrt (1 / 2)) (Real.sqrt (1 / 2)) = π / 4 := by
  have hpos : 0 < Real.sqrt (1 / 2) := Real.sqrt_pos.2 (by norm_num)
  unfold atan2
  rw [if_pos hpos, div_self (ne_of_gt hpos), Real.arctan_one]

/-! Values of `havDist` at the concrete `a` values that arise below. -/

lemma havDist_zero : havDist 0 = 0 := by
  unfold havDist
  rw [show (1:ℝ) - 0 = 1 by norm_num, Real.sqrt_zero, Real.sqrt_one,
    atan2_zero_one]
  ring

lemma havDist_one : havDist 1 = EARTH_RADIUS * π := by
  unfold havDist
  rw [show (1:ℝ) - 1 = 0 by norm_num, Real.sqrt_zero, Real.sqrt_one,
    atan2_one_zero]
  ring

lemma havDist_half : havDist (1 / 2) = EARTH_RADIUS * (π / 2) := by
  unfold havDist
  rw [show (1:ℝ) - 1 / 2 = 1 / 2 by norm_num, atan2_sqrt_half]
  ring

/-- Strict monotonicity of the haversine-to-distance map on `[0, 1]`. -/
lemma havDist_lt_havDist {x y : ℝ} (hx0 : 0 ≤ x) (hxy : x < y) (hy1 : y ≤ 1) :
    havDist x < havDist y := by
  have hx1 : x < 1 := lt_of_lt_of_le hxy hy1
  have h1x : 0 < 1 - x := by linarith
  have hsx : 0 < Real.sqrt (1 - x) := Real.sqrt_pos.2 h1x
  have hy0 : 0 < y := lt_of_le_of_lt hx0 hxy
  have hL : atan2 (Real.sqrt x) (Real.sqrt (1 - x)) =
      arctan (Real.sqrt x / Real.sqrt (1 - x)) := by
    unfold atan2
    rw [if_pos hsx]
  have key : atan2 (Real.sqrt x) (Real.sqrt (1 - x)) <
      atan2 (Real.sqrt y) (Real.sqrt (1 - y)) := by
    rcases eq_or_lt_of_le hy1 with h1 | h1
    · subst h1
      have hR : atan2 (Real.sqrt 1) (Real.sqrt (1 - 1)) = π / 2 := by
        rw [show (1:ℝ) - 1 = 0 by norm_num, Real.sqrt_zero, Real.sqrt_one,
          atan2_one_zero]
      rw [hL, hR]
      exact Real.arctan_lt_pi_div_two _
    · have h1y : 0 < 1 - y := by linarith
      have hsy : 0 < Real.sqrt (1 - y) := Real.sqrt_pos.2 h1y
      have hR : atan2 (Real.sqrt y) (Real.sqrt (1 - y)) =
          arctan (Real.sqrt y / Real.sqrt (1 - y)) := by
        unfold atan2
        rw [if_pos hsy]
      rw [hL, hR]
      apply Real.arctan_strictMono
      rw [div_lt_div_iff₀ hsx hsy]
      have h1 : Real.sqrt x * Real.sqrt (1 - y) ≤ Real.sqrt y * Real.sqrt (1 - y) :=
        mul_le_mul_of_nonneg_right (Real.sqrt_le_sqrt (le_of_lt hxy))
          (le_of_lt hsy)
      have h2 : Real.sqrt y * Real.sqrt (1 - y) < Real.sqrt y * Real.sqrt (1 - x) :=
        mul_lt_mul_of_pos_left (Real.sqrt_lt_sqrt (le_of_lt h1y) (by linarith))
          (Real.sqrt_pos.2 hy0)
      linarith
  unfold havDist EARTH_RADIUS
  nlinarith [key]

/-! Reduction lemmas for `Coordinate.distance`. -/

lemma distance_ok (c1 c2 : Coordinate) (h0 : 0 ≤ hav_a c1 c2)
    (h1 : hav_a c1 c2 ≤ 1) :
    Coordinate.distance c1 c2 = .ok (havDist (hav_a c1 c2)) := by
  unfold Coordinate.distance
  rw [if_neg (not_lt.2 h0),
    if_neg (not_lt.2 (by linarith : (0:ℝ) ≤ 1 - hav_a c1 c2))]
  rfl

lemma distance_domain_err (c1 c2 : Coordinate) (h : 1 < hav_a c1 c2) :
    Coordinate.distance c1 c2 = .error .domainError := by
  unfold Coordinate.distance
  rw [if_neg (not_lt.2 (by linarith : (0:ℝ) ≤ hav_a c1 c2)),
    if_pos (by linarith : 1 - hav_a c1 c2 < 0)]

/-! Values of the source's haversine intermediate `hav_a` at the concrete
coordinates the claims are settled on. -/

lemma sqrt_two_mul_self : Real.sqrt 2 * Real.sqrt 2 = 2 :=
  Real.mul_self_sqrt (by norm_num)

lemma hav_a_np_origin : hav_a ⟨90, 0⟩ ⟨0, 0⟩ = 1 / 2 := by
  have h1 : radians ((0:ℝ) - 90) / 2 = -(π / 4) := by unfold radians; ring
  have h2 : radians ((0:ℝ) - 0) / 2 = 0 := by unfold radians; ring
  show sin (radians ((0:ℝ) - 90) / 2) * sin (radians ((0:ℝ) - 90) / 2) +
      radians 90 * cos (radians 0) * sin (radians ((0:ℝ) - 0) / 2) *
        sin (radians ((0:ℝ) - 0) / 2) = 1 / 2
  rw [h1, h2, Real.sin_neg, Real.sin_pi_div_four, Real.sin_zero]
  linear_combination (1 / 4 : ℝ) * sqrt_two_mul_self

lemma hav_a_origin_np : hav_a ⟨0, 0⟩ ⟨90, 0⟩ = 1 / 2 := by
  have h1 : radians ((90:ℝ) - 0) / 2 = π / 4 := by unfold radians; ring
  have h3 : radians (0:ℝ) = 0 := by unfold radians; ring
  show sin (radians ((90:ℝ) - 0) / 2) * sin (radians ((90:ℝ) - 0) / 2) +
      radians 0 * cos (radians 90) * sin (radians ((0:ℝ) - 0) / 2) *
        sin (radians ((0:ℝ) - 0) / 2) = 1 / 2
  rw [h1, h3, Real.sin_pi_div_four]
  linear_combination (1 / 4 : ℝ) * sqrt_two_mul_self

lemma hav_a_B_origin : hav_a ⟨60, 90⟩ ⟨0, 0⟩ = 1 / 4 + π / 6 := by
  have h1 : radians ((0:ℝ) - 60) / 2 = -(π / 6) := by unfold radians; ring
  have h2 : radians ((0:ℝ) - 90) / 2 = -(π / 4) := by unfold radians; ring
  have h3 : radians (60:ℝ) = π / 3 := by unfold radians; ring
  have h4 : radians (0:ℝ) = 0 := by unfold radians; ring
  show sin (radians ((0:ℝ) - 60) / 2) * sin (radians ((0:ℝ) - 60) / 2) +
      radians 60 * cos (radians 0) * sin (radians ((0:ℝ) - 90) / 2) *
        sin (radians ((0:ℝ) - 90) / 2) = 1 / 4 + π / 6
  rw [h1, h2, h3, h4]
  simp only [Real.sin_neg]
  rw [Real.sin_pi_div_six, Real.sin_pi_div_four, Real.cos_zero]
  linear_combination (π / 12 : ℝ) * sqrt_two_mul_self

lemma hav_a_origin_B : hav_a ⟨0, 0⟩ ⟨60, 90⟩ = 1 / 4 := by
  have h1 : radians ((60:ℝ) - 0) / 2 = π / 6 := by unfold radians; ring
  have h4 : radians (0:ℝ) = 0 := by unfold radians; ring
  show sin (radians ((60:ℝ) - 0) / 2) * sin (radians ((60:ℝ) - 0) / 2) +
      radians 0 * cos (radians 60) * sin (radians ((90:ℝ) - 0) / 2) *
        sin (radians ((90:ℝ) - 0) / 2) = 1 / 4
  rw [h1, h4, Real.sin_pi_div_six]
  ring

lemma hav_a_np180_origin : hav_a ⟨90, 180⟩ ⟨0, 0⟩ = 1 / 2 + π / 2 := by
  have h1 : radians ((0:ℝ) - 90) / 2 = -(π / 4) := by unfold radians; ring
  have h2 : radians ((0:ℝ) - 180) / 2 = -(π / 2) := by unfold radians; ring
  have h3 : radians (90:ℝ) = π / 2 := by unfold radians; ring
  have h4 : radians (0:ℝ) = 0 := by unfold radians; ring
  show sin (radians ((0:ℝ) - 90) / 2) * sin (radians ((0:ℝ) - 90) / 2) +
      radians 90 * cos (radians 0) * sin (radians ((0:ℝ) - 180) / 2) *
        sin (radians ((0:ℝ) - 180) / 2) = 1 / 2 + π / 2
  rw [h1, h2, h3, h4]
  simp only [Real.sin_neg]
  rw [Real.sin_pi_div_four, Real.sin_pi_div_two, Real.cos_zero]
  linear_combination (1 / 4 : ℝ) * sqrt_two_mul_self

lemma hav_a_origin_np180 : hav_a ⟨0, 0⟩ ⟨90, 180⟩ = 1 / 2 := by
  have h1 : radians ((90:ℝ) - 0) / 2 = π / 4 := by unfold radians; ring
  have h4 : radians (0:ℝ) = 0 := by unfold radians; ring
  show sin (radians ((90:ℝ) - 0) / 2) * sin (radians ((90:ℝ) - 0) / 2) +
      radians 0 * cos (radians 90) * sin (radians ((180:ℝ) - 0) / 2) *
        sin (radians ((180:ℝ) - 0) / 2) = 1 / 2
  rw [h1, h4, Real.sin_pi_div_four]
  linear_combination (1 / 4 : ℝ) * sqrt_two_mul_self

lemma hav_a_equator_deg : hav_a ⟨0, 0⟩ ⟨0, 1⟩ = 0 := by
  have h1 : radians ((0:ℝ) - 0) / 2 = 0 := by unfold radians; ring
  have h4 : radians (0:ℝ) = 0 := by unfold radians; ring
  show sin (radians ((0:ℝ) - 0) / 2) * sin (radians ((0:ℝ) - 0) / 2) +
      radians 0 * cos (radians 0) * sin (radians ((1:ℝ) - 0) / 2) *
        sin (radians ((1:ℝ) - 0) / 2) = 0
  rw [h1, h4, Real.sin_zero]
  ring

lemma hav_a_poles (lon : ℝ) : hav_a ⟨90, lon⟩ ⟨-90, lon⟩ = 1 := by
  have h1 : radians ((-90:ℝ) - 90) / 2 = -(π / 2) := by unfold radians; ring
  have h2 : radians (lon - lon) / 2 = 0 := by
    rw [sub_self]; unfold radians; ring
  show sin (radians ((-90:ℝ) - 90) / 2) * sin (radians ((-90:ℝ) - 90) / 2) +
      radians 90 * cos (radians (-90)) * sin (radians (lon - lon) / 2) *
        sin (radians (lon - lon) / 2) = 1
  rw [h1, h2, Real.sin_neg, Real.sin_pi_div_two, Real.sin_zero]
  ring

lemma hav_a_lat60 : hav_a ⟨60, 0⟩ ⟨60, 180⟩ = π / 6 := by
  have h1 : radians ((60:ℝ) - 60) / 2 = 0 := by unfold radians; ring
  have h2 : radians ((180:ℝ) - 0) / 2 = π / 2 := by unfold radians; ring
  have h3 : radians (60:ℝ) = π / 3 := by unfold radians; ring
  show sin (radians ((60:ℝ) - 60) / 2) * sin (radians ((60:ℝ) - 60) / 2) +
      radians 60 * cos (radians 60) * sin (radians ((180:ℝ) - 0) / 2) *
        sin (radians ((180:ℝ) - 0) / 2) = π / 6
  rw [h1, h2, h3, Real.sin_zero, Real.sin_pi_div_two, Real.cos_pi_div_three]
  ring

lemma hav_a_np_anti : hav_a ⟨90, 0⟩ ⟨0, 180⟩ = 1 / 2 + π / 2 := by
  have h1 : radians ((0:ℝ) - 90) / 2 = -(π / 4) := by unfold radians; ring
  have h2 : radians ((180:ℝ) - 0) / 2 = π / 2 := by unfold radians; ring
  have h3 : radians (90:ℝ) = π / 2 := by unfold radians; ring
  have h4 : radians (0:ℝ) = 0 := by unfold radians; ring
  show sin (radians ((0:ℝ) - 90) / 2) * sin (radians ((0:ℝ) - 90) / 2) +
      radians 90 * cos (radians 0) * sin (radians ((180:ℝ) - 0) / 2) *
        sin (radians ((180:ℝ) - 0) / 2) = 1 / 2 + π / 2
  rw [h1, h2, h3, h4, Real.sin_neg, Real.sin_pi_div_four, Real.sin_pi_div_two,
    Real.cos_zero]
  linear_combination (1 / 4 : ℝ) * sqrt_two_mul_self

lemma spec_a_lat60 : spec_a ⟨60, 0⟩ ⟨60, 180⟩ = 1 / 4 := by
  have h1 : radians ((60:ℝ) - 60) / 2 = 0 := by unfold radians; ring
  have h2 : radians ((180:ℝ) - 0) / 2 = π / 2 := by unfold radians; ring
  have h3 : radians (60:ℝ) = π / 3 := by unfold radians; ring
  show sin (radians ((60:ℝ) - 60) / 2) ^ 2 +
      cos (radians 60) * cos (radians 60) *
        sin (radians ((180:ℝ) - 0) / 2) ^ 2 = 1 / 4
  rw [h1, h2, h3, Real.sin_zero, Real.sin_pi_div_two, Real.cos_pi_div_three]
  ring

/-! Python `min` semantics: `minScan` computes `minBy` of the key once every
key evaluation succeeds, and `minBy` returns the first minimizer. -/

lemma minScan_eq_minBy (q : Coordinate) (key : City → ℝ) :
    ∀ (cs : List City) (best : City),
    (∀ c ∈ cs, Coordinate.distance c.toCoordinate q = .ok (key c)) →
    minScan q best (key best) cs = .ok (minBy key best cs)
  | [], best, _ => rfl
  | c :: cs, best, hkey => by
    have hc : Coordinate.distance c.toCoordinate q = .ok (key c) :=
      hkey c (by simp)
    have hrest : ∀ x ∈ cs, Coordinate.distance x.toCoordinate q = .ok (key x) :=
      fun x hx => hkey x (by simp [hx])
    simp only [minScan, hc]
    simp only [minBy]
    by_cases hlt : key c < key best
    · rw [if_pos hlt, if_pos hlt]
      exact minScan_eq_minBy q key cs c hrest
    · rw [if_neg hlt, if_neg hlt]
      exact minScan_eq_minBy q key cs best hrest

lemma minBy_first_min (key : City → ℝ) :
    ∀ (cs : List City) (best : City),
    ∃ i : ℕ, (best :: cs)[i]? = some (minBy key best cs) ∧
      (∀ c ∈ best :: cs, key (minBy key best cs) ≤ key c) ∧
      ∀ j, j < i → ∀ c, (best :: cs)[j]? = some c →
        key (minBy key best cs) < key c := by
  intro cs
  induction cs with
  | nil =>
    intro best
    refine ⟨0, by simp [minBy], ?_, ?_⟩
    · intro c hc
      simp only [List.mem_singleton] at hc
      subst hc
      simp [minBy]
    · intro j hj c _
      exact absurd hj (Nat.not_lt_zero j)
  | cons c cs ih =>
    intro best
    have hupd : minBy key best (c :: cs) =
        if key c < key best then minBy key c cs else minBy key best cs := by
      simp only [minBy]
    by_cases hlt : key c < key best
    · rw [hupd, if_pos hlt]
      obtain ⟨i, hidx, hmin, hfirst⟩ := ih c
      refine ⟨i + 1, by simpa using hidx, ?_, ?_⟩
      · intro x hx
        rcases List.mem_cons.1 hx with h | h
        · rw [h]
          exact le_of_lt (lt_of_le_of_lt (hmin c (by simp)) hlt)
        · exact hmin x h
      · intro j hj x hx
        rcases j with _ | j
        · simp only [List.getElem?_cons_zero, Option.some.injEq] at hx
          rw [← hx]
          exact lt_of_le_of_lt (hmin c (by simp)) hlt
        · rw [List.getElem?_cons_succ] at hx
          exact hfirst j (by omega) x hx
    · have hge : key best ≤ key c := not_lt.1 hlt
      rw [hupd, if_neg hlt]
      obtain ⟨i, hidx, hmin, hfirst⟩ := ih best
      rcases i with _ | k
      · have hr : minBy key best cs = best := by
          simp only [List.getElem?_cons_zero, Option.some.injEq] at hidx
          exact hidx.symm
        refine ⟨0, by simp [hr], ?_, ?_⟩
        · intro x hx
          rcases List.mem_cons.1 hx with h | h
          · rw [h]
            exact hmin best (by simp)
          · rcases List.mem_cons.1 h with h' | h'
            · rw [h']
              exact le_trans (hmin best (by simp)) hge
            · exact hmin x (by simp [h'])
        · intro j hj x _
          exact absurd hj (Nat.not_lt_zero j)
      · have hidx' : cs[k]? = some (minBy key best cs) := by
          simpa using hidx
        have hlt0 : key (minBy key best cs) < key best :=
          hfirst 0 (Nat.succ_pos k) best (by simp)
        refine ⟨k + 2, ?_, ?_, ?_⟩
        · simpa using hidx'
        · intro x hx
          rcases List.mem_cons.1 hx with h | h
          · rw [h]
            exact le_of_lt hlt0
          · rcases List.mem_cons.1 h with h' | h'
            · rw [h']
              exact le_of_lt (lt_of_lt_of_le hlt0 hge)
            · exact hmin x (by simp [h'])
        · intro j hj x hx
          rcases j with _ | j
          · simp only [List.getElem?_cons_zero, Option.some.injEq] at hx
            rw [← hx]
            exact hlt0
          · rcases j with _ | j
            · simp only [List.getElem?_cons_succ, List.getElem?_cons_zero,
                Option.some.injEq] at hx
              rw [← hx]
              exact lt_of_lt_of_le hlt0 hge
            · simp only [List.getElem?_cons_succ] at hx
              exact hfirst (j + 1) (by omega) x (by simpa using hx)

/-! Concrete evaluations of `Coordinate.distance` shared by the claim
theorems and their witnesses. -/

lemma distance_np_origin :
    Coordinate.distance ⟨90, 0⟩ ⟨0, 0⟩ = .ok (havDist (1 / 2)) := by
  have ha := hav_a_np_origin
  rw [distance_ok _ _ (by rw [ha]; norm_num) (by rw [ha]; norm_num), ha]

lemma distance_origin_np :
    Coordinate.distance ⟨0, 0⟩ ⟨90, 0⟩ = .ok (havDist (1 / 2)) := by
  have ha := hav_a_origin_np
  rw [distance_ok _ _ (by rw [ha]; norm_num) (by rw [ha]; norm_num), ha]

lemma distance_B_origin :
    Coordinate.distance ⟨60, 90⟩ ⟨0, 0⟩ = .ok (havDist (1 / 4 + π / 6)) := by
  have ha := hav_a_B_origin
  rw [distance_ok _ _ (by rw [ha]; positivity)
      (by rw [ha]; linarith [Real.pi_lt_four]), ha]

lemma distance_origin_B :
    Coordinate.distance ⟨0, 0⟩ ⟨60, 90⟩ = .ok (havDist (1 / 4)) := by
  have ha := hav_a_origin_B
  rw [distance_ok _ _ (by rw [ha]; norm_num) (by rw [ha]; norm_num), ha]

lemma distance_err_np180 :
    Coordinate.distance ⟨90, 180⟩ ⟨0, 0⟩ = .error .domainError :=
  distance_domain_err _ _
    (by rw [hav_a_np180_origin]; linarith [Real.pi_gt_three])

lemma nearest_A : nearest ⟨0, 0⟩ [⟨"A", 90, 0⟩] = .ok ⟨"A", 90, 0⟩ := by
  have hd : Coordinate.distance (City.toCoordinate ⟨"A", 90, 0⟩) ⟨0, 0⟩ =
      .ok (havDist (1 / 2)) := distance_np_origin
  simp only [nearest, hd, minScan]

/-- Claim C1 (refuting evaluation): at the in-range pair (60,0), (60,180)
the source's distance does not compute the spec's haversine formula: the
code's cross term multiplies by `radians(lat1) = π/3` where the formula has
`cos(radians(lat1)) = 1/2`, so the code's intermediate is `a = π/6` where
the formula gives `1/4`, and the returned distance is strictly larger than
the specified one. -/
theorem distance_differs_from_spec_formula :
    Coordinate.distance ⟨60, 0⟩ ⟨60, 180⟩ = .ok (havDist (π / 6)) ∧
    distanceSpec ⟨60, 0⟩ ⟨60, 180⟩ = havDist (1 / 4) ∧
    havDist (1 / 4) < havDist (π / 6) := by
  refine ⟨?_, ?_, ?_⟩
  · have ha := hav_a_lat60
    rw [distance_ok _ _ (by rw [ha]; positivity)
        (by rw [ha]; linarith [Real.pi_lt_four]), ha]
  · show havDist (spec_a ⟨60, 0⟩ ⟨60, 180⟩) = havDist (1 / 4)
    rw [spec_a_lat60]
  · exact havDist_lt_havDist (by norm_num) (by linarith [Real.pi_gt_three])
      (by linarith [Real.pi_lt_four])

/-- Claim C2 (refuting evaluation): the source's distance is not symmetric.
From (0,0) to (90,180) it returns `6371·π/2 ≈ 10007.5` km, while from
(90,180) to (0,0) the intermediate is `a = 1/2 + π/2 > 1` and `sqrt(1 - a)`
raises `ValueError` — the two directions do not agree within any
tolerance. -/
theorem distance_not_symmetric :
    Coordinate.distance ⟨0, 0⟩ ⟨90, 180⟩ = .ok (EARTH_RADIUS * (π / 2)) ∧
    Coordinate.distance ⟨90, 180⟩ ⟨0, 0⟩ = .error .domainError := by
  constructor
  · have ha := hav_a_origin_np180
    rw [distance_ok _ _ (by rw [ha]; norm_num) (by rw [ha]; norm_num), ha,
      havDist_half]
  · exact distance_err_np180

/-- Claim C3 (refuting evaluation): the source's distance is not total over
the degree range: at latitude/longitude pair (90,0), (0,180) — both
in-range — the intermediate is `a = 1/2 + π/2 > 1`, so `sqrt(1 - a)`
raises `ValueError: math domain error` instead of returning a number. -/
theorem distance_raises_on_in_range_input :
    Coordinate.distance ⟨90, 0⟩ ⟨0, 180⟩ = .error .domainError :=
  distance_domain_err _ _
    (by rw [hav_a_np_anti]; linarith [Real.pi_gt_three])

/-- Claim C4 (refuting evaluation): one degree of longitude at the equator:
the source's distance returns exactly 0 km, not ≈ 111.19 km, because the
cross term is multiplied by `radians(lat1) = radians(0) = 0`; and 0 is not
within 0.1 of 111.19. -/
theorem distance_equator_one_degree_zero :
    Coordinate.distance ⟨0, 0⟩ ⟨0, 1⟩ = .ok 0 ∧
    (0.1 : ℝ) < |0 - 111.19| := by
  constructor
  · have ha := hav_a_equator_deg
    rw [distance_ok _ _ (le_of_eq ha.symm) (by rw [ha]; norm_num), ha,
      havDist_zero]
  · rw [show (0:ℝ) - 111.19 = -(111.19) by norm_num, abs_neg,
      abs_of_nonneg (by norm_num : (0:ℝ) ≤ 111.19)]
    norm_num

/-- Claim C5: for any longitude, the distance from the North Pole (90, lon)
to the South Pole (-90, lon) is exactly `6371·π`, which is within 1 km of
20015.1 km. -/
theorem distance_pole_to_pole (lon : ℝ) :
    Coordinate.distance ⟨90, lon⟩ ⟨-90, lon⟩ = .ok (EARTH_RADIUS * π) ∧
    |EARTH_RADIUS * π - 20015.1| ≤ 1 := by
  constructor
  · have ha := hav_a_poles lon
    rw [distance_ok _ _ (by rw [ha]; norm_num) (le_of_eq ha), ha, havDist_one]
  · unfold EARTH_RADIUS
    rw [abs_le]
    constructor <;> linarith [Real.pi_gt_d6, Real.pi_lt_d6]

/-- Claim C6 (counterexample): with the non-empty candidate list
[("X", 90, 180)] and query (0,0), `nearest` does not return a candidate at
all — the distance key evaluation raises `ValueError: math domain error`. -/
theorem nearest_errors_on_nonempty :
    nearest ⟨0, 0⟩ [⟨"X", 90, 180⟩] = .error .domainError := by
  have hd : Coordinate.distance (City.toCoordinate ⟨"X", 90, 180⟩) ⟨0, 0⟩ =
      .error .domainError := distance_err_np180
  simp only [nearest, hd]

/-- Claim C6 (amended): for every query and non-empty candidate list on
which every candidate's distance evaluation succeeds, `nearest` returns the
first candidate in input order achieving the minimum distance: the result
is in the list, its key is a minimum, and every earlier candidate has a
strictly larger key; as a function of its inputs it is deterministic. -/
theorem nearest_returns_first_minimum (q : Coordinate) (cities : List City)
    (key : City → ℝ)
    (hkey : ∀ c ∈ cities, Coordinate.distance c.toCoordinate q = .ok (key c))
    (hne : cities ≠ []) :
    ∃ (i : ℕ) (r : City), nearest q cities = .ok r ∧ cities[i]? = some r ∧
      (∀ c ∈ cities, key r ≤ key c) ∧
      ∀ j, j < i → ∀ c, cities[j]? = some c → key r < key c := by
  match cities, hne with
  | c :: cs, _ =>
    have hc : Coordinate.distance c.toCoordinate q = .ok (key c) :=
      hkey c (by simp)
    have hrest : ∀ x ∈ cs, Coordinate.distance x.toCoordinate q = .ok (key x) :=
      fun x hx => hkey x (by simp [hx])
    obtain ⟨i, hidx, hmin, hfirst⟩ := minBy_first_min key cs c
    refine ⟨i, minBy key c cs, ?_, hidx, hmin, hfirst⟩
    simp only [nearest, hc]
    exact minScan_eq_minBy q key cs c hrest

/-- Claim C6 (witness): the amended theorem instantiated at query (0,0) and
the single candidate ("A", 90, 0), whose distance evaluates successfully. -/
theorem nearest_returns_first_minimum_witness :
    ∃ (i : ℕ) (r : City), nearest ⟨0, 0⟩ [⟨"A", 90, 0⟩] = .ok r ∧
      ([⟨"A", 90, 0⟩] : List City)[i]? = some r ∧
      (∀ c ∈ ([⟨"A", 90, 0⟩] : List City), havDist (1 / 2) ≤ havDist (1 / 2)) ∧
      ∀ j, j < i → ∀ c, ([⟨"A", 90, 0⟩] : List City)[j]? = some c →
        havDist (1 / 2) < havDist (1 / 2) :=
  nearest_returns_first_minimum ⟨0, 0⟩ [⟨"A", 90, 0⟩]
    (fun _ => havDist (1 / 2))
    (by
      intro c hc
      simp only [List.mem_singleton] at hc
      subst hc
      exact distance_np_origin)
    (by simp)

/-- Claim C7: calling `nearest` with an empty candidate list fails with the
empty-sequence error (the spec's `EmptyCandidateSet` — Python's
`ValueError: min() arg is an empty sequence`), for every query, and no
result is produced. -/
theorem nearest_empty_raises (q : Coordinate) :
    nearest q [] = .error .emptySeq := rfl

/-- Claim C8 (counterexample): with one query (0,0) and the fixed non-empty
candidate list [("Y", 90, 180)], batch matching produces no result row at
all: the distance key raises and the run aborts with the error instead of
yielding one result for the query. -/
theorem batch_errors_on_nonempty_candidates :
    write_closest_cities [⟨0, 0⟩] [⟨"Y", 90, 180⟩] = .error .domainError := by
  have hd : Coordinate.distance (City.toCoordinate ⟨"Y", 90, 180⟩) ⟨0, 0⟩ =
      .error .domainError := distance_err_np180
  have hn : nearest ⟨0, 0⟩ [⟨"Y", 90, 180⟩] = .error .domainError := by
    simp only [nearest, hd]
  simp only [write_closest_cities, hn]

/-- Claim C8 (amended): whenever batch matching completes without an error,
it produces exactly one MatchResult per query, in the same order as the
queries, with the i-th result's query equal to the i-th input query. -/
theorem batch_one_result_per_query :
    ∀ (qs : List Coordinate) (cities : List City) (rs : List MatchResult),
    write_closest_cities qs cities = .ok rs →
    rs.length = qs.length ∧
      ∀ (i : ℕ) (r : MatchResult), rs[i]? = some r → qs[i]? = some r.query
  | [], cities, rs => by
    intro h
    simp only [write_closest_cities, Except.ok.injEq] at h
    subst h
    refine ⟨rfl, ?_⟩
    intro i r hr
    simp at hr
  | q :: qs, cities, rs => by
    intro h
    simp only [write_closest_cities] at h
    cases hn : nearest q cities with
    | error e =>
      rw [hn] at h
      simp at h
    | ok city =>
      rw [hn] at h
      cases hw : write_closest_cities qs cities with
      | error e =>
        rw [hw] at h
        simp at h
      | ok results =>
        rw [hw] at h
        simp only [Except.ok.injEq] at h
        subst h
        obtain ⟨hl, hi⟩ := batch_one_result_per_query qs cities results hw
        refine ⟨by simp [hl], ?_⟩
        intro i r hr
        rcases i with _ | i
        · simp only [List.getElem?_cons_zero, Option.some.injEq] at hr
          rw [← hr]
          simp
        · simp only [List.getElem?_cons_succ] at hr ⊢
          exact hi i r hr

/-- Claim C8 (witness): the amended theorem instantiated at one query and
one successfully evaluated candidate. -/
theorem batch_one_result_per_query_witness :
    ([⟨⟨0, 0⟩, ⟨"A", 90, 0⟩⟩] : List MatchResult).length =
        ([⟨0, 0⟩] : List Coordinate).length ∧
      ∀ (i : ℕ) (r : MatchResult),
        ([⟨⟨0, 0⟩, ⟨"A", 90, 0⟩⟩] : List MatchResult)[i]? = some r →
        ([⟨0, 0⟩] : List Coordinate)[i]? = some r.query :=
  batch_one_result_per_query [⟨0, 0⟩] [⟨"A", 90, 0⟩]
    [⟨⟨0, 0⟩, ⟨"A", 90, 0⟩⟩]
    (by
      have hn := nearest_A
      simp only [write_closest_cities, hn])

/-- Claim C9: the matcher minimizes the candidate-first distance
`distance(candidate, query)`: any returned candidate has minimal
candidate-first key among the candidates; and the argument order is
observable — at query (0,0) with candidates ("A",90,0) and ("B",60,90),
the source's candidate-first `nearest` picks A while the query-first
variant picks B, because the source's distance is not symmetric. -/
theorem nearest_uses_candidate_first_distance :
    (∀ (q : Coordinate) (cities : List City) (key : City → ℝ),
      (∀ c ∈ cities, Coordinate.distance c.toCoordinate q = .ok (key c)) →
      ∀ r, nearest q cities = .ok r → ∀ c ∈ cities, key r ≤ key c) ∧
    nearest ⟨0, 0⟩ [⟨"A", 90, 0⟩, ⟨"B", 60, 90⟩] = .ok ⟨"A", 90, 0⟩ ∧
    nearestQF ⟨0, 0⟩ [⟨"A", 90, 0⟩, ⟨"B", 60, 90⟩] = .ok ⟨"B", 60, 90⟩ := by
  refine ⟨?_, ?_, ?_⟩
  · intro q cities key hkey r hr c hc
    cases cities with
    | nil => simp [nearest] at hr
    | cons c0 cs =>
      have hc0 : Coordinate.distance c0.toCoordinate q = .ok (key c0) :=
        hkey c0 (by simp)
      have hrest : ∀ x ∈ cs,
          Coordinate.distance x.toCoordinate q = .ok (key x) :=
        fun x hx => hkey x (by simp [hx])
      simp only [nearest, hc0] at hr
      rw [minScan_eq_minBy q key cs c0 hrest] at hr
      simp only [Except.ok.injEq] at hr
      obtain ⟨i, hidx, hmin, hfirst⟩ := minBy_first_min key cs c0
      rw [← hr]
      exact hmin c hc
  · have hdA : Coordinate.distance (City.toCoordinate ⟨"A", 90, 0⟩) ⟨0, 0⟩ =
        .ok (havDist (1 / 2)) := distance_np_origin
    have hdB : Coordinate.distance (City.toCoordinate ⟨"B", 60, 90⟩) ⟨0, 0⟩ =
        .ok (havDist (1 / 4 + π / 6)) := distance_B_origin
    have hAB : havDist (1 / 2) < havDist (1 / 4 + π / 6) :=
      havDist_lt_havDist (by norm_num) (by linarith [Real.pi_gt_three])
        (by linarith [Real.pi_lt_four])
    simp only [nearest, hdA, minScan, hdB]
    rw [if_neg (not_lt.2 (le_of_lt hAB))]
  · have hdA : Coordinate.distance ⟨0, 0⟩ (City.toCoordinate ⟨"A", 90, 0⟩) =
        .ok (havDist (1 / 2)) := distance_origin_np
    have hdB : Coordinate.distance ⟨0, 0⟩ (City.toCoordinate ⟨"B", 60, 90⟩) =
        .ok (havDist (1 / 4)) := distance_origin_B
    have hBA : havDist (1 / 4) < havDist (1 / 2) :=
      havDist_lt_havDist (by norm_num) (by norm_num) (by norm_num)
    simp only [nearestQF, hdA, minScanQF, hdB]
    rw [if_pos hBA]

/-- Claim C9 (witness): the minimality component instantiated at query
(0,0) and the single candidate ("A", 90, 0). -/
theorem nearest_uses_candidate_first_distance_witness :
    havDist (1 / 2) ≤ havDist (1 / 2) :=
  nearest_uses_candidate_first_distance.1 ⟨0, 0⟩ [⟨"A", 90, 0⟩]
    (fun _ => havDist (1 / 2))
    (by
      intro c hc
      simp only [List.mem_singleton] at hc
      subst hc
      exact distance_np_origin)
    ⟨"A", 90, 0⟩ nearest_A ⟨"A", 90, 0⟩ (by simp)

/-- Helper for claim C10, proved by structural recursion two rows at a
time: an odd number of data rows makes `parse_coordinates` raise
`ValueError('Invalid coordinates file')`, and a successful parse pairs
consecutive rows as (latitude, longitude). -/
lemma parse_coordinates_spec :
    ∀ rows : List ℝ,
    (rows.length % 2 = 1 →
      parse_coordinates rows = .error "Invalid coordinates file") ∧
    (∀ cs, parse_coordinates rows = .ok cs →
      2 * cs.length = rows.length ∧
      ∀ (i : ℕ) (c : Coordinate), cs[i]? = some c →
        rows[2 * i]? = some c.latitude ∧ rows[2 * i + 1]? = some c.longitude)
  | [] => by
    constructor
    · intro h
      simp at h
    · intro cs h
      simp only [parse_coordinates, Except.ok.injEq] at h
      subst h
      refine ⟨rfl, ?_⟩
      intro i c hc
      simp at hc
  | [x] => by
    constructor
    · intro _
      rfl
    · intro cs h
      simp [parse_coordinates] at h
  | la :: lo :: rest => by
    obtain ⟨hodd, hok⟩ := parse_coordinates_spec rest
    constructor
    · intro h
      have hro : rest.length % 2 = 1 := by
        simp only [List.length_cons] at h
        omega
      simp only [parse_coordinates, hodd hro]
    · intro cs h
      simp only [parse_coordinates] at h
      cases hr : parse_coordinates rest with
      | error e =>
        rw [hr] at h
        simp at h
      | ok cs' =>
        rw [hr] at h
        simp only [Except.ok.injEq] at h
        subst h
        obtain ⟨hlen, hidx⟩ := hok cs' hr
        constructor
        · simp only [List.length_cons]
          omega
        · intro i c hc
          rcases i with _ | i
          · simp only [List.getElem?_cons_zero, Option.some.injEq] at hc
            rw [← hc]
            constructor <;> simp
          · simp only [List.getElem?_cons_succ] at hc
            have h2 : 2 * (i + 1) = 2 * i + 1 + 1 := by ring
            rw [h2]
            simp only [List.getElem?_cons_succ]
            exact hidx i c hc

/-- Claim C10: `parse_coordinates` builds each coordinate from two
consecutive data rows — the first row's value becomes the latitude, the
next row's value the longitude — and on an odd number of data rows it
raises `ValueError` instead of returning a list. -/
theorem parse_coordinates_pairs (rows : List ℝ) :
    (rows.length % 2 = 1 →
      parse_coordinates rows = .error "Invalid coordinates file") ∧
    (∀ cs, parse_coordinates rows = .ok cs →
      2 * cs.length = rows.length ∧
      ∀ (i : ℕ) (c : Coordinate), cs[i]? = some c →
        rows[2 * i]? = some c.latitude ∧ rows[2 * i + 1]? = some c.longitude) :=
  parse_coordinates_spec rows

/-- Claim C10 (witness): three data rows (odd) raise the error, and the
two-row input [10, 20] parses to a single coordinate whose latitude is the
first row and longitude the second. -/
theorem parse_coordinates_pairs_witness :
    parse_coordinates [(1:ℝ), 2, 3] = .error "Invalid coordinates file" ∧
    ([(10:ℝ), 20][2 * 0]? = some (⟨10, 20⟩ : Coordinate).latitude ∧
      [(10:ℝ), 20][2 * 0 + 1]? = some (⟨10, 20⟩ : Coordinate).longitude) :=
  ⟨(parse_coordinates_pairs [(1:ℝ), 2, 3]).1 rfl,
    ((parse_coordinates_pairs [(10:ℝ), 20]).2 [⟨10, 20⟩] rfl).2 0 ⟨10, 20⟩
      rfl⟩

/-- Claim C5 (witness): the pole-to-pole theorem instantiated at
longitude 0. -/
theorem distance_pole_to_pole_witness :
    Coordinate.distance ⟨90, 0⟩ ⟨-90, 0⟩ = .ok (EARTH_RADIUS * π) ∧
    |EARTH_RADIUS * π - 20015.1| ≤ 1 :=
  distance_pole_to_pole 0

/-- Claim C7 (witness): the empty-candidates theorem instantiated at the
query (0, 0). -/
theorem nearest_empty_raises_witness :
    nearest ⟨0, 0⟩ [] = .error .emptySeq :=
  nearest_empty_raises ⟨0, 0⟩
